import Mathlib

/-!
Shallow embedding of the kitchen simulation (src/ppois_2/kitchen.cpp /
kitchen.hpp). C++ `double` is modelled by `ℚ`, C++ `int` by `Int`.
Methods that can throw are modelled as functions returning
`Option KitchenError × σ`: the second component is the object state at
the moment the call returns or the exception escapes (C++ objects keep
their current state when an exception propagates), the first component
is `some e` exactly when the C++ method throws.  Exception messages are
English renderings of the source's messages; only the exception class
matters for the properties below.
-/

namespace Kitchen

/-- The exception classes of kitchen.hpp that the embedded operations can
throw, each carrying its message string. -/
inductive KitchenError where
  | storage (msg : String)
  | notEnoughIngredient (msg : String)
  | toolNotAvailable (msg : String)
  | timerNotSet (msg : String)
  | invalidTemperature (msg : String)
deriving DecidableEq

/-- `Unit` from kitchen.hpp: a measurement unit with grams-per-unit factor. -/
structure Unit where
  name : String
  gramsPerUnit : ℚ
  liquid : Bool
  id : Int
deriving DecidableEq

def Unit.toGrams (u : Unit) (amount : ℚ) : ℚ :=
  amount * u.gramsPerUnit

def Unit.isLiquid (u : Unit) : Bool := u.liquid

def Unit.getId (u : Unit) : Int := u.id

/-- `Quantity`: a value with an optional unit (`unit` is a nullable pointer
in the source). -/
structure Quantity where
  value : ℚ
  unit : Option Unit
  approximate : Bool
  id : Int
deriving DecidableEq

/-- `Quantity::toGrams`: throws `StorageException` when no unit is bound. -/
def Quantity.toGrams (q : Quantity) : Except KitchenError ℚ :=
  match q.unit with
  | none => .error (.storage "Unit is not set for quantity")
  | some u => .ok (u.toGrams q.value)

def Quantity.scale (q : Quantity) (factor : ℚ) : Quantity :=
  { q with value := q.value * factor }

def Quantity.isZero (q : Quantity) : Bool :=
  decide (q.value ≤ 0)

/-- `Ingredient` from kitchen.hpp. -/
structure Ingredient where
  name : String
  quantity : Quantity
  calories : ℚ
  perishable : Bool
deriving DecidableEq

/-- `Ingredient::addAmount`: computes the new mass and rescales the
quantity multiplicatively, but only when the old mass is strictly
positive; a zero (or negative) old mass leaves the quantity untouched. -/
def Ingredient.addAmount (ing : Ingredient) (v : ℚ) :
    Option KitchenError × Ingredient :=
  match ing.quantity.toGrams with
  | .error e => (some e, ing)
  | .ok oldGrams =>
    let newGrams := oldGrams + v
    if 0 < oldGrams then
      (none, { ing with quantity := ing.quantity.scale (newGrams / oldGrams) })
    else
      (none, ing)

/-- `Ingredient::useAmount`: throws `NotEnoughIngredientException` when the
requested mass exceeds the available mass, otherwise rescales by
`(grams - vGrams) / grams` (when the current mass is positive). -/
def Ingredient.useAmount (ing : Ingredient) (vGrams : ℚ) :
    Option KitchenError × Ingredient :=
  match ing.quantity.toGrams with
  | .error e => (some e, ing)
  | .ok grams =>
    if grams < vGrams then
      (some (.notEnoughIngredient "Not enough ingredient"), ing)
    else if 0 < grams then
      (none, { ing with quantity := ing.quantity.scale ((grams - vGrams) / grams) })
    else
      (none, ing)

def Ingredient.isPerishable (ing : Ingredient) : Bool := ing.perishable

/-- `KitchenTool` base class state. `cleanFlag` embeds the source field
`clean`. -/
structure KitchenTool where
  name : String
  cleanFlag : Bool
  available : Bool
  busy : Bool
  durability : Int
deriving DecidableEq

/-- The `KitchenTool(n, c, a, d)` constructor (sets `busy = false`). -/
def KitchenTool.make (n : String) (c a : Bool) (d : Int) : KitchenTool :=
  ⟨n, c, a, false, d⟩

/-- `KitchenTool::useTool`: throws unless available, clean and durability
positive; otherwise sets busy, decrements durability, clamps it at 0 and
clears `available` on depletion, then clears busy. -/
def KitchenTool.useTool (t : KitchenTool) : Option KitchenError × KitchenTool :=
  if !t.available || !t.cleanFlag || decide (t.durability ≤ 0) then
    (some (.toolNotAvailable "Tool not usable (unavailable, dirty, or broken)"), t)
  else
    let d := t.durability - 1
    if d ≤ 0 then
      (none, { t with busy := false, durability := 0, available := false })
    else
      (none, { t with busy := false, durability := d })

def KitchenTool.cleanTool (t : KitchenTool) : KitchenTool :=
  { t with cleanFlag := true }

def KitchenTool.breakTool (t : KitchenTool) : KitchenTool :=
  { t with available := false, durability := 0 }

/-- `KitchenTool::isAvailable`. -/
def KitchenTool.isAvailable (t : KitchenTool) : Bool :=
  t.available && t.cleanFlag && decide (0 < t.durability)

/-- `useTool` iterated `n` times, stopping at the first thrown exception. -/
def KitchenTool.useToolN : Nat → KitchenTool → Option KitchenError × KitchenTool
  | 0, t => (none, t)
  | n + 1, t =>
    match t.useTool with
    | (none, t') => KitchenTool.useToolN n t'
    | (some e, t') => (some e, t')

/-- `Pan` from kitchen.hpp. -/
structure Pan extends KitchenTool where
  diameter : ℚ
  nonStick : Bool
  onStove : Bool
deriving DecidableEq

/-- `Pan::heatUp`: throws `ToolNotAvailableException` unless usable, then
consumes one use and puts the pan on the stove. -/
def Pan.heatUp (p : Pan) : Option KitchenError × Pan :=
  if !p.toKitchenTool.isAvailable then
    (some (.toolNotAvailable "Pan not available"), p)
  else
    match p.toKitchenTool.useTool with
    | (some e, t') => (some e, { p with toKitchenTool := t' })
    | (none, t') => (none, { p with toKitchenTool := t', onStove := true })

def Pan.coolDown (p : Pan) : Pan := { p with onStove := false }

def Pan.isHot (p : Pan) : Bool := p.onStove

/-- `Pot` from kitchen.hpp. -/
structure Pot extends KitchenTool where
  volume : ℚ
  hasLid : Bool
  onStove : Bool
deriving DecidableEq

/-- `Pot::startBoil`: throws `ToolNotAvailableException` unless usable, then
consumes one use and puts the pot on the stove. -/
def Pot.startBoil (p : Pot) : Option KitchenError × Pot :=
  if !p.toKitchenTool.isAvailable then
    (some (.toolNotAvailable "Pot not available"), p)
  else
    match p.toKitchenTool.useTool with
    | (some e, t') => (some e, { p with toKitchenTool := t' })
    | (none, t') => (none, { p with toKitchenTool := t', onStove := true })

def Pot.stopBoil (p : Pot) : Pot := { p with onStove := false }

/-- `Pot::canBoil`. -/
def Pot.canBoil (p : Pot) (liters : ℚ) : Bool :=
  decide (liters ≤ p.volume)

/-- `Timer` from kitchen.hpp. -/
structure Timer where
  seconds : Int
  running : Bool
  elapsed : Int
  id : Int
deriving DecidableEq

/-- `Timer::start`: throws `TimerNotSetException` when `s ≤ 0`, otherwise
resets elapsed to 0 and starts running toward `s`. -/
def Timer.start (t : Timer) (s : Int) : Option KitchenError × Timer :=
  if s ≤ 0 then
    (some (.timerNotSet "Timer seconds must be > 0"), t)
  else
    (none, { t with seconds := s, elapsed := 0, running := true })

/-- `Timer::tick`: no-op for non-positive delta or when not running;
otherwise advances elapsed, clamping at `seconds` and stopping there. -/
def Timer.tick (t : Timer) (delta : Int) : Timer :=
  if delta ≤ 0 then t
  else if !t.running then t
  else
    let e := t.elapsed + delta
    if t.seconds ≤ e then
      { t with elapsed := t.seconds, running := false }
    else
      { t with elapsed := e }

/-- `Timer::isFinished`. -/
def Timer.isFinished (t : Timer) : Bool :=
  !t.running && decide (t.seconds ≤ t.elapsed) && decide (0 < t.seconds)

/-- The `while (!timer.isFinished()) timer.tick(step);` loop used by the
cooking procedures, with an explicit fuel bound; returns the final timer
state and the number of loop iterations performed. -/
def Timer.tickLoop : Nat → Int → Timer → Timer × Nat
  | 0, _, t => (t, 0)
  | fuel + 1, step, t =>
    if t.isFinished then (t, 0)
    else
      let r := Timer.tickLoop fuel step (t.tick step)
      (r.1, r.2 + 1)

/-- `TemperatureProfile` from kitchen.hpp. -/
structure TemperatureProfile where
  startTemp : ℚ
  targetTemp : ℚ
  duration : Int
  gradual : Bool
deriving DecidableEq

/-- The default `TemperatureProfile()` constructor values. -/
def TemperatureProfile.defaultProfile : TemperatureProfile :=
  ⟨20, 180, 600, true⟩

/-- `TemperatureProfile::currentTemp`: target temperature when not gradual,
elapsed past duration, or non-positive duration; otherwise linear
interpolation at ratio `elapsed / duration`. -/
def TemperatureProfile.currentTemp (p : TemperatureProfile) (elapsed : Int) : ℚ :=
  if !p.gradual || decide (p.duration ≤ elapsed) || decide (p.duration ≤ 0) then
    p.targetTemp
  else
    p.startTemp + (p.targetTemp - p.startTemp) * ((elapsed : ℚ) / (p.duration : ℚ))

def TemperatureProfile.isReached (p : TemperatureProfile) (current : ℚ) : Bool :=
  decide (p.targetTemp ≤ current)

/-- `TemperatureProfile::reset` (leaves `gradual` unchanged). -/
def TemperatureProfile.reset (p : TemperatureProfile) (s t : ℚ) (d : Int) :
    TemperatureProfile :=
  { p with startTemp := s, targetTemp := t, duration := d }

/-- `Oven` from kitchen.hpp. -/
structure Oven where
  temperature : ℚ
  onFlag : Bool    -- the source field `on` (`on` is reserved in Lean)
  doorClosed : Bool
  bakingTimer : Timer
  profile : TemperatureProfile
  elapsedSeconds : Int
deriving DecidableEq

/-- The `Oven(t, o, d)` constructor: default-constructed baking timer and
profile, zero elapsed seconds. -/
def Oven.make (t : ℚ) (o d : Bool) : Oven :=
  ⟨t, o, d, ⟨0, false, 0, 0⟩, TemperatureProfile.defaultProfile, 0⟩

/-- `Oven::preheat`: validates temperature range, door, warmup; then
re-arms the profile from the current temperature and turns on. -/
def Oven.preheat (ov : Oven) (t : ℚ) (warmupMinutes : Int) :
    Option KitchenError × Oven :=
  if t ≤ 0 || 300 < t then
    (some (.invalidTemperature "Invalid oven temperature"), ov)
  else if !ov.doorClosed then
    (some (.invalidTemperature "Oven door is open"), ov)
  else if warmupMinutes ≤ 0 then
    (some (.invalidTemperature "Warmup minutes must be > 0"), ov)
  else
    (none, { ov with
      profile := ov.profile.reset ov.temperature t (warmupMinutes * 60),
      elapsedSeconds := 0,
      onFlag := true })

/-- `Oven::turnOff`. -/
def Oven.turnOff (ov : Oven) : Oven :=
  { ov with onFlag := false, temperature := 0 }

def Oven.closeDoor (ov : Oven) : Oven := { ov with doorClosed := true }

def Oven.openDoor (ov : Oven) : Oven := { ov with doorClosed := false }

/-- `Oven::setTimerMinutes`. -/
def Oven.setTimerMinutes (ov : Oven) (minutes : Int) : Option KitchenError × Oven :=
  if minutes ≤ 0 then
    (some (.timerNotSet "Timer minutes must be > 0"), ov)
  else
    match ov.bakingTimer.start (minutes * 60) with
    | (some e, tm) => (some e, { ov with bakingTimer := tm })
    | (none, tm) => (none, { ov with bakingTimer := tm })

/-- `Oven::tick`: while on, advances elapsed time and follows the profile;
always ticks the baking timer; turns the oven off when the baking timer
is finished while the oven is on. -/
def Oven.tick (ov : Oven) (secondsDelta : Int) : Oven :=
  if secondsDelta ≤ 0 then ov
  else
    let ov1 :=
      if ov.onFlag then
        { ov with
          elapsedSeconds := ov.elapsedSeconds + secondsDelta,
          temperature := ov.profile.currentTemp (ov.elapsedSeconds + secondsDelta) }
      else ov
    let ov2 := { ov1 with bakingTimer := ov1.bakingTimer.tick secondsDelta }
    if ov2.bakingTimer.isFinished && ov2.onFlag then ov2.turnOff else ov2

def Oven.isOn (ov : Oven) : Bool := ov.onFlag

def Oven.getTemperature (ov : Oven) : ℚ := ov.temperature

def Oven.isDoorClosed (ov : Oven) : Bool := ov.doorClosed

/-- `Stove` from kitchen.hpp. -/
structure Stove where
  burners : Int
  activeBurners : Int
  gas : Bool
  onFlag : Bool    -- the source field `on` (`on` is reserved in Lean)
deriving DecidableEq

def Stove.turnOnBurner (s : Stove) : Stove :=
  if s.activeBurners < s.burners then
    { s with activeBurners := s.activeBurners + 1, onFlag := true }
  else s

def Stove.turnOffBurner (s : Stove) : Stove :=
  if 0 < s.activeBurners then
    { s with
      activeBurners := s.activeBurners - 1,
      onFlag := if s.activeBurners - 1 = 0 then false else s.onFlag }
  else s

def Stove.freeBurners (s : Stove) : Int := s.burners - s.activeBurners

/-- `ChickenSoupDish`: the ingredient members are dereferenced without a
null check by the cook (null there is undefined behavior), so they are
embedded as values; the pot, stove and timer members are null-checked in
`Cook::cookChickenSoup` and are embedded as `Option`s. -/
structure ChickenSoupDish where
  name : String
  chicken : Ingredient
  veggies : Ingredient
  use_pot : Option Pot
  use_stove : Option Stove
  use_boilTimer : Option Timer
deriving DecidableEq

/-- `Cook::cookChickenSoup`: null checks, pot capacity check `canBoil(1.5)`,
consumption of 150 g chicken and 100 g veggies, burner on, boil start,
30-minute timer, 5-minute tick loop, burner off, boil stop.  `fuel`
bounds the tick loop (6 iterations are needed). -/
def Cook.cookChickenSoup (fuel : Nat) (d : ChickenSoupDish) :
    Option KitchenError × ChickenSoupDish :=
  match d.use_pot with
  | none => (some (.toolNotAvailable "No pot for the soup"), d)
  | some pot =>
    match d.use_stove with
    | none => (some (.toolNotAvailable "No stove for the soup"), d)
    | some stove =>
      match d.use_boilTimer with
      | none => (some (.timerNotSet "No timer for the soup"), d)
      | some tm =>
        if !pot.canBoil (3 / 2 : ℚ) then
          (some (.notEnoughIngredient "The pot is too small for the soup"), d)
        else
          match d.chicken.useAmount 150 with
          | (some e, c') => (some e, { d with chicken := c' })
          | (none, c') =>
            match d.veggies.useAmount 100 with
            | (some e, v') => (some e, { d with chicken := c', veggies := v' })
            | (none, v') =>
              let stove1 := stove.turnOnBurner
              match pot.startBoil with
              | (some e, p') =>
                (some e, { d with chicken := c', veggies := v',
                                  use_stove := some stove1, use_pot := some p' })
              | (none, p') =>
                match tm.start (30 * 60) with
                | (some e, tm') =>
                  (some e, { d with chicken := c', veggies := v',
                                    use_stove := some stove1, use_pot := some p',
                                    use_boilTimer := some tm' })
                | (none, tm') =>
                  let r := Timer.tickLoop fuel (5 * 60) tm'
                  (none, { d with chicken := c', veggies := v',
                                  use_stove := some stove1.turnOffBurner,
                                  use_pot := some p'.stopBoil,
                                  use_boilTimer := some r.1 })

/-! Concrete instances used by the witnesses (mirroring the repository's
own test fixtures in KitchenTests.cpp). -/

/-- The gram unit `Unit("g", 1.0, false, 1)` from the tests. -/
def gramUnit : Kitchen.Unit := ⟨"g", 1, false, 1⟩

/-- A zero-stock ingredient with a bound unit, as in the test
`Ingredient_AddAmount_FromZero_NoCrash`. -/
def zeroSugar : Ingredient := ⟨"sugar", ⟨0, some gramUnit, false, 0⟩, 0, false⟩

/-- The 150 g flour stock from the spec scenario. -/
def flour150 : Ingredient := ⟨"Flour", ⟨150, some gramUnit, false, 0⟩, 0, false⟩

/-- A freshly constructed oven: `Oven()` defaults `(0.0, false, true)`. -/
def oven0 : Oven := Oven.make 0 false true

/-- An oven that is on, with a 60-second baking timer running. -/
def ovenW : Oven := ⟨100, true, true, ⟨60, true, 0, 0⟩, ⟨0, 180, 600, true⟩, 0⟩

/-- A dirty pan (cleanFlag `false`), hence not usable. -/
def dirtyPan : Pan := ⟨⟨"pan", false, true, false, 100⟩, 24, true, false⟩

/-- A dirty pot (cleanFlag `false`), hence not usable. -/
def dirtyPot : Pot := ⟨⟨"pot", false, true, false, 100⟩, 3, true, false⟩

/-- A clean, available pot of volume 1.0 litres. -/
def smallPot : Pot := ⟨⟨"pot", true, true, false, 100⟩, 1, true, false⟩

/-- A chicken-soup dish bound to the volume-1.0 pot. -/
def soupDishW : ChickenSoupDish :=
  ⟨"soup", ⟨"chicken", ⟨500, some gramUnit, false, 0⟩, 0, true⟩,
   ⟨"veggies", ⟨300, some gramUnit, false, 0⟩, 0, true⟩,
   some smallPot, some ⟨4, 0, false, false⟩, some ⟨0, false, 0, 0⟩⟩

/-! Theorems. -/

/-- C1: the claim says `addAmount(v)` on a zero-mass stock sets the mass to
`v`; the code's `oldGrams > 0` guard instead skips the rescale entirely,
so the mass stays 0.  Evaluated at the failing input: zero stock, bound
gram unit, `addAmount(50)` — the call succeeds but the resulting mass is
0, not 50. -/
theorem addAmount_on_zero_stock_is_skipped :
    (zeroSugar.addAmount 50).1 = none ∧
    (zeroSugar.addAmount 50).2 = zeroSugar ∧
    (zeroSugar.addAmount 50).2.quantity.toGrams = Except.ok 0 ∧
    (0 : ℚ) ≠ 50 := by
  norm_num [zeroSugar, gramUnit, Ingredient.addAmount, Quantity.toGrams,
    Unit.toGrams]

/-- C2 counterexample: the default gradual profile (start 20, target 180,
duration 600) at elapsed −600 yields −140 by linear extrapolation, not the
claimed clamp to `startTemp = 20`. -/
theorem currentTemp_negative_not_clamped :
    TemperatureProfile.defaultProfile.currentTemp (-600) = -140 ∧
    TemperatureProfile.defaultProfile.startTemp = 20 ∧
    (-140 : ℚ) ≠ 20 := by
  norm_num [TemperatureProfile.currentTemp, TemperatureProfile.defaultProfile]

/-- C2 amended: `currentTemp` is total by construction (a function into ℚ);
a non-gradual or non-positive-duration profile returns `targetTemp` for
every elapsed value, negative included; and a gradual profile with positive
duration maps negative elapsed to the linear extrapolation value, which
lies at or below `startTemp` whenever `startTemp ≤ targetTemp` — negative
elapsed is extrapolated, not clamped to `startTemp`. -/
theorem currentTemp_total_and_negative_extrapolation
    (p : TemperatureProfile) (e : Int) :
    (p.gradual = false ∨ p.duration ≤ 0 → p.currentTemp e = p.targetTemp) ∧
    (p.gradual = true → 0 < p.duration → e < 0 → p.startTemp ≤ p.targetTemp →
      p.currentTemp e ≤ p.startTemp) := by
  constructor
  · intro h
    unfold TemperatureProfile.currentTemp
    rcases h with h | h
    · simp [h]
    · simp [h]
  · intro hg hd he hst
    unfold TemperatureProfile.currentTemp
    have hcond : (!p.gradual || decide (p.duration ≤ e) ||
        decide (p.duration ≤ 0)) = false := by
      simp [hg]
      omega
    rw [hcond]
    simp only [Bool.false_eq_true, if_false]
    have h1 : ((e : ℚ) / (p.duration : ℚ)) ≤ 0 := by
      apply div_nonpos_of_nonpos_of_nonneg
      · exact_mod_cast he.le
      · exact_mod_cast hd.le
    have h2 : (p.targetTemp - p.startTemp) * ((e : ℚ) / (p.duration : ℚ)) ≤ 0 :=
      mul_nonpos_iff.mpr (Or.inl ⟨by linarith, h1⟩)
    linarith

/-- Witness for the amended C2 at the default profile and elapsed −600. -/
theorem currentTemp_total_and_negative_extrapolation_witness :
    TemperatureProfile.defaultProfile.currentTemp (-600) ≤
      TemperatureProfile.defaultProfile.startTemp :=
  (currentTemp_total_and_negative_extrapolation
      TemperatureProfile.defaultProfile (-600)).2
    rfl (by decide) (by decide) (by decide)

/-- C6: from a fresh oven, `preheat(180, 10)` then `tick(600)` reaches
temperature 180 with the oven still on; a subsequent `setTimerMinutes(1)`
then `tick(60)` finishes the bake timer, which auto-turns the oven off. -/
theorem oven_bake_cycle_scenario :
    (oven0.preheat 180 10).1 = none ∧
    ((oven0.preheat 180 10).2.tick 600).getTemperature = 180 ∧
    ((oven0.preheat 180 10).2.tick 600).isOn = true ∧
    (((oven0.preheat 180 10).2.tick 600).setTimerMinutes 1).1 = none ∧
    ((((oven0.preheat 180 10).2.tick 600).setTimerMinutes 1).2.tick 60).isOn
      = false := by
  norm_num [oven0, Oven.make, TemperatureProfile.defaultProfile, Oven.preheat,
    Oven.tick, Oven.turnOff, Oven.isOn, Oven.getTemperature,
    Oven.setTimerMinutes, Timer.start, Timer.tick, Timer.isFinished,
    TemperatureProfile.reset, TemperatureProfile.currentTemp]

/-- C9: on a pan or pot that is not usable (dirty, unavailable or with
durability 0), `heatUp` / `startBoil` throws `ToolNotAvailableException`
and returns the object exactly as it was — no field is modified by the
failed call. -/
theorem heatUp_startBoil_fail_leaves_state (p : Pan) (q : Pot) :
    (p.toKitchenTool.isAvailable = false →
      p.heatUp = (some (KitchenError.toolNotAvailable "Pan not available"), p)) ∧
    (q.toKitchenTool.isAvailable = false →
      q.startBoil = (some (KitchenError.toolNotAvailable "Pot not available"), q)) := by
  constructor
  · intro h
    simp [Pan.heatUp, h]
  · intro h
    simp [Pot.startBoil, h]

/-- Witness for C9: the dirty pan and pot. -/
theorem heatUp_startBoil_fail_leaves_state_witness :
    dirtyPan.heatUp = (some (KitchenError.toolNotAvailable "Pan not available"), dirtyPan) ∧
    dirtyPot.startBoil = (some (KitchenError.toolNotAvailable "Pot not available"), dirtyPot) :=
  ⟨(heatUp_startBoil_fail_leaves_state dirtyPan dirtyPot).1 (by decide),
   (heatUp_startBoil_fail_leaves_state dirtyPan dirtyPot).2 (by decide)⟩

/-- C10: both paths to the off state — explicit `turnOff` and the
auto-shutoff inside `tick` when the bake timer finishes while on — reset
the temperature to 0, so right after a bake cycle completes
`getTemperature()` is 0, not the preheat target. -/
theorem oven_off_resets_temperature (ov : Oven) (delta : Int) :
    (ov.turnOff.isOn = false ∧ ov.turnOff.getTemperature = 0) ∧
    (ov.onFlag = true → (ov.tick delta).isOn = false →
      (ov.tick delta).getTemperature = 0) := by
  refine ⟨⟨rfl, rfl⟩, ?_⟩
  intro hon hoff
  by_cases hd : delta ≤ 0
  · simp [Oven.tick, Oven.isOn, hd, hon] at hoff
  · by_cases hfin : (ov.bakingTimer.tick delta).isFinished = true
    · simp [Oven.tick, Oven.isOn, Oven.getTemperature, Oven.turnOff,
        hd, hon, hfin]
    · simp [Oven.tick, Oven.isOn, hd, hon, hfin] at hoff

/-- Witness for C10: oven on with a 60-second timer, ticked by 60. -/
theorem oven_off_resets_temperature_witness :
    (ovenW.tick 60).getTemperature = 0 :=
  (oven_off_resets_temperature ovenW 60).2 rfl (by decide)

/-- C5: on a timer with `running = false` (idle or finished), `tick` with
any delta — and any sequence of deltas — leaves the whole timer state
unchanged; a finished timer stays finished after any further tick; and a
single tick never advances `elapsed` past `seconds` (it either leaves
`elapsed` unchanged or clamps it at the target). -/
theorem timer_terminal_tick_noop (t : Timer) :
    (t.running = false → ∀ delta : Int, t.tick delta = t) ∧
    (t.running = false → ∀ ds : List Int, List.foldl Timer.tick t ds = t) ∧
    (t.isFinished = true → ∀ delta : Int, (t.tick delta).isFinished = true) ∧
    (t.isFinished = true →
      ∀ ds : List Int, (List.foldl Timer.tick t ds).isFinished = true) ∧
    (∀ delta : Int,
      (t.tick delta).elapsed = t.elapsed ∨ (t.tick delta).elapsed ≤ t.seconds) := by
  have hnoop : t.running = false → ∀ delta : Int, t.tick delta = t := by
    intro h delta
    unfold Timer.tick
    by_cases hd : delta ≤ 0
    · simp [hd]
    · simp [hd, h]
  have hfold : t.running = false → ∀ ds : List Int, List.foldl Timer.tick t ds = t := by
    intro h ds
    induction ds with
    | nil => rfl
    | cons d ds ih =>
      rw [List.foldl_cons, hnoop h d]
      exact ih
  have hrun : t.isFinished = true → t.running = false := by
    intro hf
    unfold Timer.isFinished at hf
    simp only [Bool.and_eq_true, Bool.not_eq_true'] at hf
    exact hf.1.1
  refine ⟨hnoop, hfold, ?_, ?_, ?_⟩
  · intro hf delta
    rw [hnoop (hrun hf) delta]
    exact hf
  · intro hf ds
    rw [hfold (hrun hf) ds]
    exact hf
  · intro delta
    unfold Timer.tick
    by_cases hd : delta ≤ 0
    · simp [hd]
    · by_cases hr : t.running
      · simp only [hd, if_false, hr, Bool.not_true, Bool.false_eq_true]
        by_cases hs : t.seconds ≤ t.elapsed + delta
        · simp [hs]
        · simp only [hs, if_false]
          right
          simp only [not_le] at hs
          omega
      · simp [hd, hr]

/-- Witness for C5 at a concrete finished timer. -/
theorem timer_terminal_tick_noop_witness :
    (⟨10, false, 10, 0⟩ : Timer).tick 5 = (⟨10, false, 10, 0⟩ : Timer) ∧
    ((⟨10, false, 10, 0⟩ : Timer).tick 5).isFinished = true ∧
    (List.foldl Timer.tick ⟨10, false, 10, 0⟩ [5, 7, 9]).isFinished = true :=
  ⟨(timer_terminal_tick_noop ⟨10, false, 10, 0⟩).1 rfl 5,
   (timer_terminal_tick_noop ⟨10, false, 10, 0⟩).2.2.1 (by decide) 5,
   (timer_terminal_tick_noop ⟨10, false, 10, 0⟩).2.2.2.1 (by decide) [5, 7, 9]⟩

/-- C3: on an ingredient with a bound unit and positive current mass `g`,
`useAmount(g)` succeeds and leaves the mass exactly 0; afterwards any
`useAmount` of a positive amount throws `NotEnoughIngredientException`
and leaves the (zero-mass) ingredient state unchanged. -/
theorem useAmount_exact_drains_then_fails (ing : Ingredient) (u : Kitchen.Unit)
    (g : ℚ) (hu : ing.quantity.unit = some u)
    (hg : ing.quantity.toGrams = Except.ok g) (hpos : 0 < g) :
    (ing.useAmount g).1 = none ∧
    (ing.useAmount g).2.quantity.toGrams = Except.ok 0 ∧
    ∀ p : ℚ, 0 < p →
      (ing.useAmount g).2.useAmount p =
        (some (KitchenError.notEnoughIngredient "Not enough ingredient"),
         (ing.useAmount g).2) := by
  have hgval : u.toGrams ing.quantity.value = g := by
    simpa [Quantity.toGrams, hu] using hg
  have h1 : ing.useAmount g =
      (none, { ing with quantity := { ing.quantity with value := 0 } }) := by
    simp [Ingredient.useAmount, Quantity.toGrams, hu, hgval, hpos,
      Quantity.scale]
  rw [h1]
  refine ⟨rfl, ?_, ?_⟩
  · simp [Quantity.toGrams, hu, Unit.toGrams]
  · intro p hp
    simp [Ingredient.useAmount, Quantity.toGrams, hu, Unit.toGrams, hp]

/-- Witness for C3: the spec's 150 g flour stock, drained by 150 g and then
asked for 150 g again. -/
theorem useAmount_exact_drains_then_fails_witness :
    (flour150.useAmount 150).1 = none ∧
    (flour150.useAmount 150).2.quantity.toGrams = Except.ok 0 ∧
    (flour150.useAmount 150).2.useAmount 150 =
      (some (KitchenError.notEnoughIngredient "Not enough ingredient"),
       (flour150.useAmount 150).2) := by
  have h := useAmount_exact_drains_then_fails flour150 gramUnit 150 rfl
    (by norm_num [flour150, gramUnit, Quantity.toGrams, Unit.toGrams])
    (by norm_num)
  exact ⟨h.1, h.2.1, h.2.2 150 (by norm_num)⟩

/-- C8: `canBoil(liters)` holds exactly when `liters ≤ volume`; a pot of
volume 1.0 rejects `canBoil(1.5)`; and in `cookChickenSoup` the capacity
check runs before any consumption, so when it fails the procedure aborts
with `NotEnoughIngredientException` and the whole dish state — in
particular the chicken and veggies stocks — is unchanged. -/
theorem canBoil_guard_before_consumption :
    (∀ (p : Pot) (liters : ℚ), p.canBoil liters = true ↔ liters ≤ p.volume) ∧
    (∀ p : Pot, p.volume = 1 → p.canBoil (3 / 2) = false) ∧
    (∀ (fuel : Nat) (d : ChickenSoupDish) (p : Pot),
      d.use_pot = some p → p.canBoil (3 / 2) = false →
      d.use_stove.isSome = true → d.use_boilTimer.isSome = true →
      Cook.cookChickenSoup fuel d =
        (some (KitchenError.notEnoughIngredient
          "The pot is too small for the soup"), d)) := by
  refine ⟨?_, ?_, ?_⟩
  · intro p liters
    simp [Pot.canBoil]
  · intro p hv
    simp [Pot.canBoil, hv]
    norm_num
  · intro fuel d p hp hcb hs ht
    obtain ⟨s, hs⟩ := Option.isSome_iff_exists.mp hs
    obtain ⟨tm, ht⟩ := Option.isSome_iff_exists.mp ht
    simp [Cook.cookChickenSoup, hp, hs, ht, hcb]

/-- Witness for C8: the volume-1.0 pot and the soup dish bound to it. -/
theorem canBoil_guard_before_consumption_witness :
    smallPot.canBoil (3 / 2) = false ∧
    Cook.cookChickenSoup 6 soupDishW =
      (some (KitchenError.notEnoughIngredient
        "The pot is too small for the soup"), soupDishW) := by
  have hcb : smallPot.canBoil (3 / 2) = false :=
    canBoil_guard_before_consumption.2.1 smallPot rfl
  exact ⟨hcb,
    canBoil_guard_before_consumption.2.2 6 soupDishW smallPot rfl hcb rfl rfl⟩

/-- One successful `useTool` on a clean, available tool with durability
`j' + 1` leaves durability `j'` and availability `j' > 0`. -/
theorem useTool_healthy_step (nm : String) (j' : Nat) :
    KitchenTool.useTool ⟨nm, true, true, false, ((j' + 1 : Nat) : Int)⟩ =
      (none, ⟨nm, true, decide (0 < (j' : Int)), false, (j' : Int)⟩) := by
  unfold KitchenTool.useTool
  have hc : (!true || !true || decide (((j' + 1 : Nat) : Int) ≤ 0)) = false := by
    simp only [Bool.not_true, Bool.false_or]
    exact decide_eq_false (by omega)
  rw [hc]
  simp only [Bool.false_eq_true, if_false]
  have harith : ((j' + 1 : Nat) : Int) - 1 = (j' : Int) := by
    push_cast
    ring
  rw [harith]
  by_cases hz : (j' : Int) ≤ 0
  · have hj0 : j' = 0 := by omega
    subst hj0
    simp
  · rw [if_neg hz, decide_eq_true (show (0 : Int) < (j' : Int) by omega)]

/-- A clean tool with `j` durability left (and `available` exactly when the
durability is positive) runs `k ≤ j` successful uses, ending with `j − k`
durability and availability `j − k > 0`. -/
theorem useToolN_healthy (nm : String) : ∀ (k j : Nat), k ≤ j →
    KitchenTool.useToolN k ⟨nm, true, decide (0 < (j : Int)), false, (j : Int)⟩ =
      (none, ⟨nm, true, decide (0 < ((j - k : Nat) : Int)), false,
        ((j - k : Nat) : Int)⟩) := by
  intro k
  induction k with
  | zero =>
    intro j _
    simp [KitchenTool.useToolN]
  | succ k ih =>
    intro j hk
    cases j with
    | zero => omega
    | succ j' =>
      have hav0 : (0 : Int) < ((j' + 1 : Nat) : Int) := by
        exact_mod_cast Nat.succ_pos j'
      rw [decide_eq_true hav0]
      have hstep : KitchenTool.useToolN (k + 1)
          ⟨nm, true, true, false, ((j' + 1 : Nat) : Int)⟩ =
          KitchenTool.useToolN k
            ⟨nm, true, decide (0 < (j' : Int)), false, (j' : Int)⟩ := by
        simp only [KitchenTool.useToolN, useTool_healthy_step]
      rw [hstep, ih j' (by omega)]
      have hsub : (j' + 1) - (k + 1) = j' - k := by omega
      rw [hsub]

/-- Composing `useToolN` runs: a successful first batch followed by the rest. -/
theorem useToolN_add_ok (m n : Nat) (t t' : KitchenTool)
    (h : KitchenTool.useToolN m t = (none, t')) :
    KitchenTool.useToolN (m + n) t = KitchenTool.useToolN n t' := by
  induction m generalizing t with
  | zero =>
    simp only [KitchenTool.useToolN, Prod.mk.injEq, true_and] at h
    rw [Nat.zero_add, h]
  | succ m ih =>
    have hmn : m + 1 + n = (m + n) + 1 := by omega
    rw [hmn]
    simp only [KitchenTool.useToolN] at h ⊢
    cases hu : t.useTool with
    | mk e t'' =>
      cases e with
      | none =>
        simp only [hu] at h ⊢
        exact ih t'' h
      | some err =>
        simp only [hu] at h
        simp at h

/-- Once `useToolN` has thrown, longer runs return the same result. -/
theorem useToolN_add_err (m n : Nat) (t t' : KitchenTool) (e : KitchenError)
    (h : KitchenTool.useToolN m t = (some e, t')) :
    KitchenTool.useToolN (m + n) t = (some e, t') := by
  induction m generalizing t with
  | zero =>
    simp [KitchenTool.useToolN] at h
  | succ m ih =>
    have hmn : m + 1 + n = (m + n) + 1 := by omega
    rw [hmn]
    simp only [KitchenTool.useToolN] at h ⊢
    cases hu : t.useTool with
    | mk e' t'' =>
      cases e' with
      | none =>
        simp only [hu] at h ⊢
        exact ih t'' h
      | some err =>
        simp only [hu] at h ⊢
        exact h

/-- `useTool` on an unavailable tool throws and leaves the tool unchanged;
hence so does any positive number of iterated uses. -/
theorem useToolN_stuck (n : Nat) (t : KitchenTool) (h : t.available = false) :
    KitchenTool.useToolN (n + 1) t =
      (some (KitchenError.toolNotAvailable
        "Tool not usable (unavailable, dirty, or broken)"), t) := by
  have hu : t.useTool = (some (KitchenError.toolNotAvailable
      "Tool not usable (unavailable, dirty, or broken)"), t) := by
    simp [KitchenTool.useTool, h]
  have hflip : (n + 1) = 1 + n := by omega
  rw [hflip]
  have h1 : KitchenTool.useToolN (0 + 1) t = (some (KitchenError.toolNotAvailable
      "Tool not usable (unavailable, dirty, or broken)"), t) := by
    simp only [KitchenTool.useToolN, hu]
  exact useToolN_add_err 1 n t t _ (by simpa using h1)

/-- C4: a tool constructed clean and available with durability `d > 0`
survives exactly `d` `useTool` calls: the `d`-th success leaves durability
exactly 0 and clears `available`, the `(d+1)`-th call throws
`ToolNotAvailableException`, and the durability is never negative after
any number of calls. -/
theorem useTool_exhausts_in_exactly_d_uses (nm : String) (d : Nat) (hd : 0 < d) :
    (KitchenTool.useToolN d (KitchenTool.make nm true true (d : Int))).1 = none ∧
    (KitchenTool.useToolN d (KitchenTool.make nm true true (d : Int))).2.durability = 0 ∧
    (KitchenTool.useToolN d (KitchenTool.make nm true true (d : Int))).2.available = false ∧
    (KitchenTool.useToolN (d + 1) (KitchenTool.make nm true true (d : Int))).1 =
      some (KitchenError.toolNotAvailable
        "Tool not usable (unavailable, dirty, or broken)") ∧
    ∀ k : Nat,
      0 ≤ (KitchenTool.useToolN k (KitchenTool.make nm true true (d : Int))).2.durability := by
  have hmk : KitchenTool.make nm true true (d : Int) =
      ⟨nm, true, decide (0 < (d : Int)), false, (d : Int)⟩ := by
    have : decide (0 < (d : Int)) = true := by
      simp
      omega
    rw [this]
    rfl
  have hrun := useToolN_healthy nm d d le_rfl
  have hfinTool : KitchenTool.useToolN d (KitchenTool.make nm true true (d : Int)) =
      (none, ⟨nm, true, false, false, 0⟩) := by
    rw [hmk, hrun]
    simp
  have hfail : KitchenTool.useToolN (d + 1) (KitchenTool.make nm true true (d : Int)) =
      (some (KitchenError.toolNotAvailable
        "Tool not usable (unavailable, dirty, or broken)"),
       ⟨nm, true, false, false, 0⟩) := by
    rw [useToolN_add_ok d 1 _ _ hfinTool]
    exact useToolN_stuck 0 _ rfl
  refine ⟨by rw [hfinTool], by rw [hfinTool], by rw [hfinTool],
    by rw [hfail], ?_⟩
  intro k
  rcases Nat.le_total k d with hk | hk
  · rw [hmk, useToolN_healthy nm k d hk]
    exact Int.natCast_nonneg _
  · rcases Nat.exists_eq_add_of_le hk with ⟨r, hr⟩
    rcases Nat.eq_or_lt_of_le hk with heq | hlt
    · rw [← heq, hfinTool]
    · have hr1 : k = (d + 1) + (k - (d + 1)) := by omega
      rw [hr1, useToolN_add_err (d + 1) (k - (d + 1)) _ _ _ hfail]

/-- Witness for C4 at `d = 2` (the repository's own test
`KitchenTool_UseTool_DecreasesDurability` fixture). -/
theorem useTool_exhausts_witness :
    (KitchenTool.useToolN 2 (KitchenTool.make "tool" true true ((2 : Nat) : Int))).2.durability = 0 ∧
    (KitchenTool.useToolN 3 (KitchenTool.make "tool" true true ((2 : Nat) : Int))).1 =
      some (KitchenError.toolNotAvailable
        "Tool not usable (unavailable, dirty, or broken)") ∧
    0 ≤ (KitchenTool.useToolN 5 (KitchenTool.make "tool" true true ((2 : Nat) : Int))).2.durability := by
  have h := useTool_exhausts_in_exactly_d_uses "tool" 2 (by decide)
  exact ⟨h.2.1, h.2.2.2.1, h.2.2.2.2 5⟩

/-- A finished timer short-circuits the tick loop immediately. -/
theorem tickLoop_finished (fuel : Nat) (step : Int) (t : Timer)
    (h : t.isFinished = true) :
    Timer.tickLoop fuel step t = (t, 0) := by
  cases fuel with
  | zero => rfl
  | succ f => simp [Timer.tickLoop, h]

/-- A running timer with `0 ≤ elapsed < seconds`, ticked by a positive step
with enough fuel, reaches the clamped finished state, and the iteration
count `n` is characterised by `s·(n−1) < remaining ≤ s·n`. -/
theorem tickLoop_run : ∀ (fuel : Nat) (S e s i : Int), 0 < s → 0 ≤ e → e < S →
    S - e ≤ s * (fuel : Int) →
    ∃ n : Nat, Timer.tickLoop fuel s ⟨S, true, e, i⟩ = (⟨S, false, S, i⟩, n) ∧
      s * ((n : Int) - 1) < S - e ∧ S - e ≤ s * (n : Int) := by
  intro fuel
  induction fuel with
  | zero =>
    intro S e s i hs he heS hfuel
    simp only [Nat.cast_zero, mul_zero] at hfuel
    omega
  | succ f ih =>
    intro S e s i hs he heS hfuel
    have hnotfin : (⟨S, true, e, i⟩ : Timer).isFinished = false := by
      simp [Timer.isFinished]
    have hds : ¬ s ≤ 0 := not_le.mpr hs
    have htick : (⟨S, true, e, i⟩ : Timer).tick s =
        (if S ≤ e + s then (⟨S, false, S, i⟩ : Timer)
         else ⟨S, true, e + s, i⟩) := by
      simp [Timer.tick, hds]
    simp only [Timer.tickLoop, hnotfin, Bool.false_eq_true, if_false]
    rw [htick]
    by_cases hreach : S ≤ e + s
    · rw [if_pos hreach]
      have hfin2 : (⟨S, false, S, i⟩ : Timer).isFinished = true := by
        simp [Timer.isFinished]
        omega
      rw [tickLoop_finished f s _ hfin2]
      refine ⟨1, rfl, ?_, ?_⟩
      · push_cast
        linarith
      · push_cast
        linarith
    · rw [if_neg hreach]
      have hexp : s * ((f + 1 : Nat) : Int) = s * (f : Int) + s := by
        push_cast
        ring
      have hfuel' : S - (e + s) ≤ s * (f : Int) := by
        rw [hexp] at hfuel
        linarith
      obtain ⟨n', heq, h1, h2⟩ :=
        ih S (e + s) s i hs (by omega) (by omega) hfuel'
      rw [heq]
      refine ⟨n' + 1, rfl, ?_, ?_⟩
      · have e1 : s * (((n' + 1 : Nat) : Int) - 1) = s * ((n' : Int) - 1) + s := by
          push_cast
          ring
        rw [e1]
        linarith
      · have e2 : s * ((n' + 1 : Nat) : Int) = s * (n' : Int) + s := by
          push_cast
          ring
        rw [e2]
        linarith

/-- The loop iteration count characterised by `s·(n−1) < T ≤ s·n` equals
`⌈T / s⌉ = (T + s − 1) div s` (computed over the non-negative operands). -/
theorem loop_count_is_ceil (T s : Int) (n : Nat) (hT : 0 < T) (hs : 0 < s)
    (h1 : s * ((n : Int) - 1) < T) (h2 : T ≤ s * (n : Int)) :
    n = (T.toNat + s.toNat - 1) / s.toNat := by
  have hTa : T = (T.toNat : Int) := (Int.toNat_of_nonneg hT.le).symm
  have hsb : s = (s.toNat : Int) := (Int.toNat_of_nonneg hs.le).symm
  have hb0 : 0 < s.toNat := by omega
  cases n with
  | zero =>
    simp only [Nat.cast_zero, mul_zero] at h2
    omega
  | succ m =>
    have hcast : ((m + 1 : Nat) : Int) - 1 = (m : Int) := by
      push_cast
      ring
    rw [hcast, hTa, hsb] at h1
    rw [hTa, hsb] at h2
    have h1n : s.toNat * m < T.toNat := by exact_mod_cast h1
    have h2n : T.toNat ≤ s.toNat * (m + 1) := by exact_mod_cast h2
    have key : (T.toNat + s.toNat - 1) / s.toNat = m + 1 := by
      apply Nat.div_eq_of_lt_le
      · have e1 : (m + 1) * s.toNat = s.toNat * m + s.toNat := by ring
        rw [e1]
        omega
      · have e2 : (m + 1 + 1) * s.toNat = s.toNat * (m + 1) + s.toNat := by ring
        rw [e2]
        omega
    exact key.symm

/-- C7: for `T > 0` and step `s > 0` (with enough loop fuel `T ≤ s·fuel`),
`start(T)` succeeds and the wait loop `while (!isFinished()) tick(s)`
terminates with `elapsed` clamped to exactly `T`, the timer stopped, after
exactly `⌈T / s⌉` tick iterations. -/
theorem waitLoop_exact_iterations (T s : Int) (t0 : Timer) (fuel : Nat)
    (hT : 0 < T) (hs : 0 < s) (hfuel : T ≤ s * (fuel : Int)) :
    (t0.start T).1 = none ∧
    Timer.tickLoop fuel s (t0.start T).2 =
      ({ t0 with seconds := T, running := false, elapsed := T },
       (T.toNat + s.toNat - 1) / s.toNat) := by
  have hstart : t0.start T =
      (none, { t0 with seconds := T, elapsed := 0, running := true }) := by
    simp [Timer.start, not_le.mpr hT]
  rw [hstart]
  refine ⟨rfl, ?_⟩
  have hrec : ({ t0 with seconds := T, elapsed := 0, running := true } : Timer) =
      ⟨T, true, 0, t0.id⟩ := rfl
  rw [hrec]
  obtain ⟨n, heq, h1, h2⟩ :=
    tickLoop_run fuel T 0 s t0.id hs le_rfl hT (by simpa using hfuel)
  rw [heq]
  have hn : n = (T.toNat + s.toNat - 1) / s.toNat :=
    loop_count_is_ceil T s n hT hs (by simpa using h1) (by simpa using h2)
  rw [hn]

/-- Witness for C7 at the chicken-soup parameters: 30 minutes total,
5-minute steps, 6 iterations. -/
theorem waitLoop_exact_iterations_witness :
    ((⟨0, false, 0, 0⟩ : Timer).start 1800).1 = none ∧
    Timer.tickLoop 6 300 ((⟨0, false, 0, 0⟩ : Timer).start 1800).2 =
      ((⟨1800, false, 1800, 0⟩ : Timer), 6) := by
  have h := waitLoop_exact_iterations 1800 300 ⟨0, false, 0, 0⟩ 6
    (by decide) (by decide) (by decide)
  exact ⟨h.1, h.2⟩

end Kitchen
